import Mathlib

/-!
Verification of the kingfisher-process collection/pipeline design against its
Python source. The Django models (`src/default/models.py`), the management
commands `load`, `addstep`, `checker` (`src/process/management/commands/`) and
the legacy CLI command `end-collection-store`
(`src/ocdskingfisherprocess/cli/commands/end_collection_store.py`) are embedded
shallowly: rows become structures, the database becomes a list of rows,
commands become functions on that state, and exceptions become `Except`.
-/

namespace KF

/-- Python truthiness of a nullable integer column (`bool(None) = False`,
`bool(0) = False`, `bool(n) = True` for `n ≠ 0`), as used by
`Collection.clean_fields` on `self.transform_from_collection_id`. -/
def pyTruthyOptNat : Option Nat → Bool
  | none => false
  | some n => n != 0

/-- Python truthiness of a text column (empty string is falsy), as used by
`Collection.clean_fields` on `self.transform_type`. -/
def pyTruthyStr (s : String) : Bool := s != ""

/-- One row of the `collection` table (`src/default/models.py`, class
`Collection`). Timestamps are abstract `Nat` instants; `none` models SQL NULL.
`id` is the primary key. Fields not touched by any claim (`check_data`,
cached counts, …) are carried where a claim's code reads them. -/
structure Collection where
  id : Nat
  source_id : String
  data_version : String
  sample : Bool
  transform_from_collection_id : Option Nat
  transform_type : String
  store_start_at : Nat
  store_end_at : Option Nat
  deleted_at : Option Nat
deriving Repr, DecidableEq

/-- The two members of `Collection.Transforms` (`src/default/models.py`
lines 51-53): the stored values of the `TextChoices` enum. -/
def Collection.Transforms.COMPILE_RELEASES : String := "compile-releases"

/-- The stored value of `Collection.Transforms.UPGRADE_10_11`
(`src/default/models.py` line 53): the value is spelled with hyphens
throughout, `upgrade-1-0-to-1-1`; only its human-readable label mentions
`1.0` and `1.1`. -/
def Collection.Transforms.UPGRADE_10_11 : String := "upgrade-1-0-to-1-1"

/-- `Collection.Transforms.values` in Django order. -/
def Collection.Transforms.values : List String :=
  [Collection.Transforms.COMPILE_RELEASES, Collection.Transforms.UPGRADE_10_11]

/-- `Collection.clean_fields` (`src/default/models.py` lines 83-87): raises
`ValidationError` when exactly one of `transform_from_collection_id` and
`transform_type` is truthy (Python `^` on their `bool`s). -/
def Collection.clean_fields (c : Collection) : Except String Unit :=
  if xor (pyTruthyOptNat c.transform_from_collection_id) (pyTruthyStr c.transform_type)
  then .error "transform_from_collection_id and transform_type must either be both set or both not set."
  else .ok ()

/-- The partial unique constraint `unique_collection_identifiers`
(`src/default/models.py` lines 46-49): two rows conflict when both satisfy the
condition `transform_type = ''` and agree on `(source_id, data_version,
sample)`. -/
def collectionConflicts (a b : Collection) : Bool :=
  a.transform_type == "" && b.transform_type == "" &&
  a.source_id == b.source_id && a.data_version == b.data_version && a.sample == b.sample

/-- How a write to the `collection` table can fail: model validation
(`ValidationError` from `clean_fields`) or the database's unique constraint
(`IntegrityError`). -/
inductive SaveError where
  | validationError (message : String)
  | integrityError
deriving Repr, DecidableEq

/-- A validated insert into the `collection` table. Modelled from the spec:
the writers (`CollectionForm` in `process/forms.py`, `create_master_collection`
in `process/processors/loader.py`) are not under `src/`; per the spec and
Django form semantics they run `full_clean` (hence `clean_fields`,
`src/default/models.py` lines 83-87) and the insert is then subject to the
`unique_collection_identifiers` constraint (`src/default/models.py` lines
46-49). -/
def saveCollection (db : List Collection) (c : Collection) :
    Except SaveError (List Collection) :=
  match c.clean_fields with
  | .error m => .error (.validationError m)
  | .ok () =>
    if db.any (fun b => collectionConflicts c b) then .error .integrityError
    else .ok (db ++ [c])

/-- The `collection` tables reachable by validated inserts from the empty
table. -/
inductive Stored : List Collection → Prop
  | nil : Stored []
  | save {db c db'} : Stored db → saveCollection db c = .ok db' → Stored db'

/-- The `(source_id, data_version, sample)` identity triple of a collection. -/
def Collection.triple (c : Collection) : String × String × Bool :=
  (c.source_id, c.data_version, c.sample)

/-- A concrete non-transform ("master") collection row, as the `load` command
would create for `--source example` at `2020-01-01 00:00:00`. -/
def masterRowA : Collection :=
  ⟨1, "example", "2020-01-01 00:00:00", false, none, "", 0, none, none⟩

/-- A second non-transform row with a different `source_id`. -/
def masterRowB : Collection :=
  ⟨2, "other", "2020-01-01 00:00:00", false, none, "", 0, none, none⟩

/-- A transform collection derived from collection 1 by `compile-releases`. -/
def transformRowA : Collection :=
  ⟨2, "example", "2020-01-01 00:00:00", false, some 1, "compile-releases", 0, none, none⟩

/-- A second transform row with the same identity triple as `transformRowA`. -/
def transformRowB : Collection :=
  ⟨3, "example", "2020-01-01 00:00:00", false, some 1, "compile-releases", 0, none, none⟩

/-- A row with `transform_type` set but no source collection: rejected by
`Collection.clean_fields`. -/
def halfLineageRow : Collection :=
  ⟨5, "example", "2020-01-01 00:00:00", false, none, "compile-releases", 0, none, none⟩

/-- One row of the `data` table (`src/default/models.py`, class `Data`; class
`PackageData` has the identical shape and its own `unique_package_data_hash_md5`
constraint, so one embedding covers both stores). `hash_md5` is the content
fingerprint, `data` the opaque payload. -/
structure DataRow where
  id : Nat
  hash_md5 : String
  data : String
deriving Repr, DecidableEq

/-- Modelled from the spec: the Content Store writers are not under `src/`
(only the `Data`/`PackageData` models and their unique `hash_md5` constraints
are); per spec §4.1, `intern` looks the fingerprint up, returns the existing
row's reference on a match, and otherwise inserts a new row and returns its
reference. Primary keys are assigned sequentially (the row's position). -/
def intern (db : List DataRow) (fingerprint payload : String) : List DataRow × Nat :=
  match db.find? (fun r => r.hash_md5 == fingerprint) with
  | some r => (db, r.id)
  | none => (db ++ [⟨db.length, fingerprint, payload⟩], db.length)

/-- Primary keys of the content store match row positions (how `intern`
assigns them). -/
def internIdsOk (db : List DataRow) : Prop :=
  ∀ i : Fin db.length, (db.get i).id = i.val

/-- No two rows of the content store share a fingerprint (the
`unique_data_hash_md5` / `unique_package_data_hash_md5` constraints). -/
def internHashesNodup (db : List DataRow) : Prop :=
  (db.map DataRow.hash_md5).Nodup

/-- Content-store states reachable by `intern` from the empty store. -/
inductive InternReach : List DataRow → Prop
  | nil : InternReach []
  | step {db f p} : InternReach db → InternReach (intern db f p).1

/-- The possible outcomes of the legacy `end-collection-store` command
(`src/ocdskingfisherprocess/cli/commands/end_collection_store.py`): it prints
either `Already Ended!` (and returns without touching the database) or
`Store Ended!`. -/
inductive EndStoreOutcome where
  | alreadyEnded
  | storeEnded
deriving Repr, DecidableEq

/-- Modelled from the spec: `database.mark_collection_store_done` is not under
`src/`; per spec §4.2, `closeCollection` sets `store_end_at` to now on the
selected collection's row. -/
def mark_collection_store_done (db : List Collection) (cid : Nat) (now : Nat) :
    List Collection :=
  db.map (fun c => if c.id == cid then { c with store_end_at := some now } else c)

/-- `EndCollectionStoreCLICommand.run_command`
(`src/ocdskingfisherprocess/cli/commands/end_collection_store.py` lines
11-21): `collection` is the row selected by
`run_command_for_selecting_existing_collection` (not under `src/`); if its
`store_end_at` is set the command only prints `Already Ended!`, otherwise it
calls `mark_collection_store_done` and prints `Store Ended!`. -/
def end_collection_store_run_command (db : List Collection) (collection : Collection)
    (now : Nat) : List Collection × EndStoreOutcome :=
  if collection.store_end_at.isSome then (db, .alreadyEnded)
  else (mark_collection_store_done db collection.id now, .storeEnded)

/-- A collection row that is already closed (`store_end_at` set). -/
def closedRow : Collection :=
  ⟨7, "example", "2020-01-01 00:00:00", false, none, "", 0, some 3, none⟩

/-- The `choices` of the `step` argument of the `addstep` command
(`src/process/management/commands/addstep.py` line 15):
`['check'] + Collection.Transforms.values`. -/
def addstepStepChoices : List String := ["check"] ++ Collection.Transforms.values

/-- The `load` command's options relevant to collection creation
(`src/process/management/commands/load.py` lines 49-87): `--source`, `--time`,
`--sample`, `--keep-open`, `--collection`, `--note`, `--force`, `--upgrade`,
`--compile`. -/
structure LoadOptions where
  source : Option String
  time : Option String
  sample : Bool
  keep_open : Bool
  collection : Option Nat
  note : Option String
  force : Bool
  upgrade : Bool
  compile : Bool
deriving Repr, DecidableEq

/-- The keyword arguments `load.handle` passes to `create_master_collection`
(`src/process/management/commands/load.py` lines 131-139). -/
structure CreateMasterCollectionCall where
  source : Option String
  data_version : String
  note : Option String
  upgrade : Bool
  compile : Bool
  sample : Bool
deriving Repr, DecidableEq

/-- The call `create_master_collection(options["source"], data_version,
options["note"], upgrade=options["upgrade"], compile=options["upgrade"],
sample=options["sample"])` (`src/process/management/commands/load.py` lines
132-139): the `compile` keyword is passed `options["upgrade"]`. -/
def createMasterCollectionCall (options : LoadOptions) (data_version : String) :
    CreateMasterCollectionCall :=
  { source := options.source, data_version := data_version, note := options.note,
    upgrade := options.upgrade, compile := options.upgrade, sample := options.sample }

/-- A Python value appearing in a Django query lookup: the `load` command's
`IntegrityError` handler passes strings, booleans and `None`. -/
inductive PyVal where
  | str (s : String)
  | boolean (b : Bool)
  | num (n : Nat)
  | pynone
deriving Repr, DecidableEq

/-- `options["source"]` as a lookup value (`None` when `--source` was not
given). -/
def PyVal.ofSource : Option String → PyVal
  | some s => .str s
  | none => .pynone

/-- The keywords Django can resolve on the `Collection` model
(`src/default/models.py` lines 26-87): its concrete fields (plus `pk` and the
`_id` spelling of the foreign key). Any other keyword passed to
`Collection.objects.get` raises `django.core.exceptions.FieldError`. -/
def collectionLookupFields : List String :=
  ["pk", "id", "source_id", "data_version", "sample", "check_data",
   "check_older_data_with_schema_version_1_1", "transform_from_collection",
   "transform_from_collection_id", "transform_type", "cached_releases_count",
   "cached_records_count", "cached_compiled_releases_count",
   "store_start_at", "store_end_at", "deleted_at"]

/-- Whether a collection row matches one resolvable lookup pair (only the
columns the `load` handler queries are evaluated). -/
def collectionMatches (c : Collection) (kv : String × PyVal) : Bool :=
  match kv with
  | ("source_id", v) => v == .str c.source_id
  | ("data_version", v) => v == .str c.data_version
  | ("sample", v) => v == .boolean c.sample
  | ("transform_type", v) => v == .str c.transform_type
  | ("id", v) => v == .num c.id
  | ("pk", v) => v == .num c.id
  | _ => false

/-- How `Collection.objects.get(**kwargs)` can raise: `FieldError` for an
unresolvable keyword, `DoesNotExist` for no match, `MultipleObjectsReturned`
for several. -/
inductive GetError where
  | fieldError (name : String)
  | doesNotExist
  | multipleObjectsReturned
deriving Repr, DecidableEq

/-- `Collection.objects.get(**lookups)`: Django first resolves every keyword
against the model's fields (a bad keyword raises `FieldError` regardless of
the table's contents), then requires exactly one matching row. -/
def collectionObjectsGet (db : List Collection) (lookups : List (String × PyVal)) :
    Except GetError Collection :=
  match lookups.find? (fun kv => !(collectionLookupFields.contains kv.1)) with
  | some kv => .error (.fieldError kv.1)
  | none =>
    match db.filter (fun c => lookups.all (fun kv => collectionMatches c kv)) with
    | [] => .error .doesNotExist
    | [c] => .ok c
    | _ => .error .multipleObjectsReturned

/-- What escapes `load.handle` on the `IntegrityError` path: the
`CommandError` the handler means to raise (message template plus the
conflicting row's pk), or an exception from `Collection.objects.get` that the
handler does not catch. -/
inductive LoadConflictOutcome where
  | commandError (message : String) (id : Nat)
  | uncaught (e : GetError)
deriving Repr, DecidableEq

/-- The `except IntegrityError` branch of `load.handle`
(`src/process/management/commands/load.py` lines 144-161): it builds
`data = dict(source_id=…, data_version=…, sample=…, force=options["force"])`
and calls `Collection.objects.get(**data, transform_type='')`, then raises a
`CommandError` whose message depends on the matched collection's
`deleted_at` / `store_end_at`. -/
def loadIntegrityErrorBranch (db : List Collection) (source : Option String)
    (data_version : String) (sample force : Bool) : LoadConflictOutcome :=
  let data := [("source_id", PyVal.ofSource source),
               ("data_version", PyVal.str data_version),
               ("sample", PyVal.boolean sample),
               ("force", PyVal.boolean force)]
  match collectionObjectsGet db (data ++ [("transform_type", PyVal.str "")]) with
  | .error e => .uncaught e
  | .ok collection =>
    if collection.deleted_at.isSome then
      .commandError "A collection %(id)s matching those arguments is being deleted" collection.id
    else if collection.store_end_at.isSome then
      .commandError "A closed collection %(id)s matching those arguments already exists" collection.id
    else
      .commandError "An open collection %(id)s matching those arguments already exists. Use --collection %(id)s to load data into it." collection.id

/-- The observable actions of one `checker` worker delivery
(`src/process/management/commands/checker.py` lines 16-32). `recordError` and
`advanceStep` are in the vocabulary because the spec requires them, but the
checker never performs them. -/
inductive CheckerEv where
  | parse
  | publish (message : String)
  | ack
  | recordError
  | advanceStep
  | logException
  | exitProcess
deriving Repr, DecidableEq

/-- The message `checker.process` publishes: `json.dumps` of the dict with
key `dataset_id` mapped to `1` (hard-coded). -/
def datasetMessage : String := "dataset_id = 1"

/-- The outcome of `json.loads(body.decode('utf8'))` on the delivered body;
the checker never inspects the decoded value beyond logging it, so the parse
outcome is the body's entire interface. -/
inductive ParsedBody where
  | ok (message : String)
  | raises
deriving Repr, DecidableEq

/-- `checker.Command.process`
(`src/process/management/commands/checker.py` lines 16-32) as its action
sequence: the `try` block parses, publishes the next-phase message, then
acks; on any exception the `except` block logs and calls `sys.exit()` —
nothing is acked, published, advanced or recorded. -/
def checkerProcessTrace (body : ParsedBody) : List CheckerEv :=
  match body with
  | .ok _ => [.parse, .publish datasetMessage, .ack]
  | .raises => [.logException, .exitProcess]

/-- The observable actions of `load.handle` after collection creation. -/
inductive LoadEv where
  | storeFile (filename : String)
  | attachStep (filename : String) (step : String)
  | publishMessage (filename : String)
  | setCollectionEnd
  | setUpgradedCollectionEnd
  | runStage (stage : String) (filename : String)
  | setFileEnd (filename : String)
deriving Repr, DecidableEq

/-- Whether an event is a stage worker running a stage. -/
def LoadEv.isRunStage : LoadEv → Bool
  | .runStage _ _ => true
  | _ => false

/-- Whether an event sets `store_end_at` on a `CollectionFile`. -/
def LoadEv.isSetFileEnd : LoadEv → Bool
  | .setFileEnd _ => true
  | _ => false

/-- The storage loop and close-out of `load.handle`
(`src/process/management/commands/load.py` lines 165-192): for each walked
path, one transaction stores the `CollectionFile` and attaches every
`settings.DEFAULT_STEPS` entry as a `CollectionFileStep` row, then the job
message is published; after the loop `collection.store_end_at = Now()` is
saved (and the upgraded collection's, when one exists). Stage workers only
ever consume the published messages, so in the schedule where the command
runs to completion first, no `runStage` event is interleaved; the command
itself never runs a stage and never sets `store_end_at` on a file. -/
def loadHandleTrace (defaultSteps : List String) (paths : List String)
    (hasUpgradedCollection : Bool) : List LoadEv :=
  (paths.flatMap (fun p =>
    [LoadEv.storeFile p] ++ defaultSteps.map (LoadEv.attachStep p) ++
      [LoadEv.publishMessage p]))
  ++ [LoadEv.setCollectionEnd]
  ++ (if hasUpgradedCollection then [LoadEv.setUpgradedCollectionEnd] else [])

/-- The database state shared by the `addstep` command and concurrent
loaders, restricted to one collection: its step configuration, its committed
`collection_file` rows, and the multiset of `(file, step)` jobs enqueued so
far (a loader enqueues by attaching `CollectionFileStep` rows and publishing
the file's job; `addstep` enqueues the new step for existing files). -/
structure PipelineState where
  collectionSteps : List String
  files : List String
  enqueued : List (String × String)
deriving Repr, DecidableEq

/-- The empty collection: no configured steps, no files, nothing enqueued. -/
def initialPipelineState : PipelineState := ⟨[], [], []⟩

/-- One loader transaction (`src/process/management/commands/load.py` lines
167-184): INSERTs the `collection_file` row and attaches the static
`settings.DEFAULT_STEPS` as the file's pending steps, then its job message is
published. The loader neither reads nor `SELECT ... FOR SHARE`s the
collection's step configuration, although the protocol documented in
`addstep.py` lines 39-58 requires exactly that. -/
def loadTx (defaultSteps : List String) (f : String) (st : PipelineState) :
    PipelineState :=
  { st with files := st.files ++ [f],
            enqueued := st.enqueued ++ defaultSteps.map (fun s => (f, s)) }

/-- Modelled from the spec: `Collection.add_step` (called by `addstep.py` line
79) is not under `src/`; per spec §4.4 and the comment in `addstep.py` lines
27-58, the reconfiguration transaction updates the collection's step
configuration and, in the same transaction, SELECTs the collection's existing
files and enqueues the new stage's job for each. -/
def addstepTx (step : String) (st : PipelineState) : PipelineState :=
  { st with collectionSteps := st.collectionSteps ++ [step],
            enqueued := st.enqueued ++ st.files.map (fun f => (f, step)) }

/-- A committed transaction against the collection: one loader iteration or
one `addstep` run. -/
inductive PipelineTx where
  | load (filename : String)
  | addstep (step : String)
deriving Repr, DecidableEq

/-- Run a serialization of committed transactions. Each side of the protocol
is a single database transaction, so every concurrent execution is equivalent
to some such commit order. -/
def runSchedule (defaultSteps : List String) :
    List PipelineTx → PipelineState → PipelineState
  | [], st => st
  | .load f :: rest, st => runSchedule defaultSteps rest (loadTx defaultSteps f st)
  | .addstep s :: rest, st => runSchedule defaultSteps rest (addstepTx s st)

/-- How many times file `f` has been enqueued for step `s`. -/
def enqueueCount (st : PipelineState) (f s : String) : Nat :=
  st.enqueued.count (f, s)

theorem saveCollection_ok_elim {db db' : List Collection} {c : Collection}
    (h : saveCollection db c = .ok db') :
    c.clean_fields = .ok () ∧ db.any (fun b => collectionConflicts c b) = false ∧
      db' = db ++ [c] := by
  unfold saveCollection at h
  cases hclean : c.clean_fields with
  | error m => rw [hclean] at h; exact absurd h (by simp)
  | ok u =>
    rw [hclean] at h
    simp only at h
    by_cases hany : db.any (fun b => collectionConflicts c b) = true
    · rw [if_pos hany] at h; exact absurd h (by simp)
    · rw [if_neg hany] at h
      injection h with h
      exact ⟨by cases u; rfl, Bool.eq_false_iff.mpr hany, h.symm⟩

theorem stored_pairwise_no_conflict {db : List Collection} (h : Stored db) :
    List.Pairwise (fun a b => collectionConflicts b a = false) db := by
  induction h with
  | nil => exact List.Pairwise.nil
  | @save db c db' _ hsave ih =>
    obtain ⟨_, hany, hdb'⟩ := saveCollection_ok_elim hsave
    subst hdb'
    rw [List.pairwise_append]
    refine ⟨ih, List.pairwise_singleton _ _, ?_⟩
    intro a ha b hb
    rw [List.mem_singleton.mp hb]
    cases hcc : collectionConflicts c a with
    | false => rfl
    | true =>
      have hmem : db.any (fun b => collectionConflicts c b) = true :=
        List.any_eq_true.mpr ⟨a, ha, hcc⟩
      rw [hany] at hmem
      exact absurd hmem Bool.false_ne_true

theorem stored_clean_fields {db : List Collection} (h : Stored db) :
    ∀ c ∈ db, c.clean_fields = .ok () := by
  induction h with
  | nil => intro c hc; cases hc
  | @save db c db' _ hsave ih =>
    obtain ⟨hclean, _, hdb'⟩ := saveCollection_ok_elim hsave
    subst hdb'
    intro a ha
    rcases List.mem_append.mp ha with h1 | h2
    · exact ih a h1
    · rw [List.mem_singleton.mp h2]; exact hclean

theorem conflicts_of_eq_triples {a b : Collection}
    (ha : a.transform_type = "") (hb : b.transform_type = "")
    (htriple : a.triple = b.triple) : collectionConflicts a b = true := by
  unfold Collection.triple at htriple
  have h1 : a.source_id = b.source_id := congrArg Prod.fst htriple
  have h2 : a.data_version = b.data_version := congrArg (Prod.fst ∘ Prod.snd) htriple
  have h3 : a.sample = b.sample := congrArg (Prod.snd ∘ Prod.snd) htriple
  simp [collectionConflicts, ha, hb, h1, h2, h3]

/-- C2: in every collection table reachable by validated inserts, two distinct
rows whose `transform_type` is empty never share the `(source_id,
data_version, sample)` triple — the triple identifies a non-transform
collection — while two transform rows may share it (the partial unique
constraint `unique_collection_identifiers` has condition
`transform_type = ''`). -/
theorem claim_C2_identity_unique_among_non_transform :
    (∀ (db : List Collection), Stored db →
      ∀ i j : Fin db.length, i.val < j.val →
        (db.get i).transform_type = "" → (db.get j).transform_type = "" →
        (db.get i).triple ≠ (db.get j).triple) ∧
    (∃ db : List Collection, Stored db ∧
      ∃ i j : Fin db.length, i.val < j.val ∧
        (db.get i).transform_type ≠ "" ∧ (db.get j).transform_type ≠ "" ∧
        (db.get i).triple = (db.get j).triple) := by
  constructor
  · intro db h i j hij hi hj htriple
    have hp := stored_pairwise_no_conflict h
    rw [List.pairwise_iff_get] at hp
    have hfalse := hp i j hij
    have htrue := conflicts_of_eq_triples hj hi htriple.symm
    rw [htrue] at hfalse
    exact Bool.true_eq_false ▸ absurd hfalse (by simp)
  · have h1 : saveCollection [] transformRowA = .ok [transformRowA] := by rfl
    have h2 : saveCollection [transformRowA] transformRowB =
        .ok [transformRowA, transformRowB] := by rfl
    exact ⟨[transformRowA, transformRowB],
      Stored.save (Stored.save Stored.nil h1) h2,
      ⟨0, by decide⟩, ⟨1, by decide⟩, by decide, by decide, by decide, by decide⟩

/-- Witness for C2 at a concrete stored table with two distinct non-transform
rows. -/
theorem claim_C2_identity_unique_among_non_transform_witness :
    masterRowA.triple ≠ masterRowB.triple := by
  have h1 : saveCollection [] masterRowA = .ok [masterRowA] := by rfl
  have h2 : saveCollection [masterRowA] masterRowB = .ok [masterRowA, masterRowB] := by rfl
  have h := claim_C2_identity_unique_among_non_transform.1
    [masterRowA, masterRowB]
    (Stored.save (Stored.save Stored.nil h1) h2)
    ⟨0, by decide⟩ ⟨1, by decide⟩ (by decide) rfl rfl
  exact h

/-- C4: `Collection.clean_fields` fails with a `ValidationError` exactly when
exactly one of `transform_from_collection_id` and `transform_type` is set
(Python truthiness, as the source tests `bool(...) ^ bool(...)`), and
consequently no stored collection has exactly one lineage field set. -/
theorem claim_C4_lineage_all_or_nothing :
    (∀ c : Collection, (∃ m, c.clean_fields = .error m) ↔
      xor (pyTruthyOptNat c.transform_from_collection_id) (pyTruthyStr c.transform_type) = true) ∧
    (∀ db : List Collection, Stored db → ∀ c ∈ db,
      xor (pyTruthyOptNat c.transform_from_collection_id) (pyTruthyStr c.transform_type) = false) := by
  constructor
  · intro c
    unfold Collection.clean_fields
    by_cases hx : xor (pyTruthyOptNat c.transform_from_collection_id) (pyTruthyStr c.transform_type) = true
    · rw [if_pos hx]
      exact ⟨fun _ => hx, fun _ => ⟨_, rfl⟩⟩
    · rw [if_neg hx]
      constructor
      · rintro ⟨m, hm⟩; cases hm
      · intro h; exact absurd h hx
  · intro db h c hc
    have hok := stored_clean_fields h c hc
    unfold Collection.clean_fields at hok
    by_cases hx : xor (pyTruthyOptNat c.transform_from_collection_id) (pyTruthyStr c.transform_type) = true
    · rw [if_pos hx] at hok; cases hok
    · exact Bool.eq_false_iff.mpr hx

theorem intern_prefix (db : List DataRow) (f p : String) :
    ∃ t, (intern db f p).1 = db ++ t := by
  unfold intern
  cases hf : db.find? (fun r => r.hash_md5 == f) with
  | some r => exact ⟨[], by simp⟩
  | none => exact ⟨[⟨db.length, f, p⟩], rfl⟩

theorem intern_idsOk {db : List DataRow} (h : internIdsOk db) (f p : String) :
    internIdsOk (intern db f p).1 := by
  unfold intern
  cases hf : db.find? (fun r => r.hash_md5 == f) with
  | some r => exact h
  | none =>
    intro i
    simp only at i ⊢
    rcases Nat.lt_or_ge i.val db.length with hlt | hge
    · rw [List.get_append _ hlt]
      exact h ⟨i.val, hlt⟩
    · have hlen : i.val = db.length := by
        have := i.isLt
        simp [List.length_append] at this
        omega
      have : (db ++ [(⟨db.length, f, p⟩ : DataRow)]).get i =
          (⟨db.length, f, p⟩ : DataRow) := by
        rw [List.get_eq_getElem]
        rw [List.getElem_append_right (by omega)]
        simp [hlen]
      rw [this, hlen]

theorem intern_hashesNodup {db : List DataRow} (h : internHashesNodup db) (f p : String) :
    internHashesNodup (intern db f p).1 := by
  unfold intern
  cases hf : db.find? (fun r => r.hash_md5 == f) with
  | some r => exact h
  | none =>
    unfold internHashesNodup at h ⊢
    simp only [List.map_append, List.map_cons, List.map_nil]
    rw [List.nodup_append]
    refine ⟨h, List.nodup_singleton _, ?_⟩
    intro a ha hb
    rcases List.mem_map.mp ha with ⟨r, hr, hra⟩
    have hnf := List.find?_eq_none.mp hf r hr
    rw [List.mem_singleton.mp hb] at hra
    exact hnf (by rw [hra]; exact beq_self_eq_true f)

theorem intern_result_mem {db : List DataRow} (hids : internIdsOk db) (f p : String) :
    ∃ i : Fin (intern db f p).1.length,
      ((intern db f p).1.get i).hash_md5 = f ∧ i.val = (intern db f p).2 := by
  unfold intern
  cases hf : db.find? (fun r => r.hash_md5 == f) with
  | some r =>
    have hr := List.mem_of_find?_eq_some hf
    have hpr := List.find?_some hf
    rcases List.mem_iff_get.mp hr with ⟨i, hi⟩
    refine ⟨i, ?_, ?_⟩
    · rw [hi]; exact beq_iff_eq.mp hpr
    · rw [← hids i, hi]
  | none =>
    have hlt : db.length < (db ++ [(⟨db.length, f, p⟩ : DataRow)]).length := by simp
    refine ⟨⟨db.length, hlt⟩, ?_, rfl⟩
    have hx : (db ++ [(⟨db.length, f, p⟩ : DataRow)]).get ⟨db.length, hlt⟩ =
        (⟨db.length, f, p⟩ : DataRow) := by
      rw [List.get_eq_getElem]
      rw [List.getElem_append_right (Nat.le_refl _)]
      simp
    show ((db ++ [(⟨db.length, f, p⟩ : DataRow)]).get ⟨db.length, hlt⟩).hash_md5 = f
    rw [hx]

theorem intern_again_eq (db : List DataRow) (f p1 p2 : String) :
    intern (intern db f p1).1 f p2 = intern db f p1 := by
  unfold intern
  cases hf : db.find? (fun r => r.hash_md5 == f) with
  | some r => simp [hf]
  | none =>
    simp only
    rw [List.find?_append, hf]
    simp

theorem internReach_inv {db : List DataRow} (h : InternReach db) :
    internIdsOk db ∧ internHashesNodup db := by
  induction h with
  | nil => exact ⟨fun i => i.elim0, List.nodup_nil⟩
  | step hdb ih => exact ⟨intern_idsOk ih.1 _ _, intern_hashesNodup ih.2 _ _⟩

/-- C3: re-interning a payload whose fingerprint is already stored returns the
existing row (same reference, store unchanged); interning a different
fingerprint returns a different row; and every reachable content store keeps
at most one row per fingerprint (the `unique_data_hash_md5` /
`unique_package_data_hash_md5` constraints). -/
theorem claim_C3_intern_dedups_by_fingerprint :
    ∀ db : List DataRow, InternReach db → ∀ f1 p1 f2 p2 : String,
      (f1 = f2 → intern (intern db f1 p1).1 f2 p2 = intern db f1 p1) ∧
      (f1 ≠ f2 → (intern (intern db f1 p1).1 f2 p2).2 ≠ (intern db f1 p1).2) ∧
      internHashesNodup (intern (intern db f1 p1).1 f2 p2).1 := by
  intro db hreach f1 p1 f2 p2
  obtain ⟨hids, hnodup⟩ := internReach_inv hreach
  have hids1 : internIdsOk (intern db f1 p1).1 := intern_idsOk hids f1 p1
  have hnodup1 : internHashesNodup (intern db f1 p1).1 := intern_hashesNodup hnodup f1 p1
  refine ⟨?_, ?_, intern_hashesNodup hnodup1 f2 p2⟩
  · intro heq; subst heq; exact intern_again_eq db f1 p1 p2
  · intro hne heq
    obtain ⟨i1, hi1hash, hi1val⟩ := intern_result_mem hids f1 p1
    obtain ⟨i2, hi2hash, hi2val⟩ := intern_result_mem hids1 f2 p2
    obtain ⟨t, ht⟩ := intern_prefix (intern db f1 p1).1 f2 p2
    have hsame : i1.val = i2.val := by rw [hi1val, hi2val, heq]
    have hi1ltA : i1.val < (intern (intern db f1 p1).1 f2 p2).1.length := by
      rw [ht, List.length_append]
      exact Nat.lt_of_lt_of_le i1.isLt (Nat.le_add_right _ _)
    have h2v : (intern (intern db f1 p1).1 f2 p2).1[i1.val]? =
        (intern db f1 p1).1[i1.val]? := by
      rw [ht, List.getElem?_append, if_pos i1.isLt]
    have e2 : (intern (intern db f1 p1).1 f2 p2).1[i1.val]? =
        some ((intern (intern db f1 p1).1 f2 p2).1.get ⟨i1.val, hi1ltA⟩) := by
      rw [List.getElem?_eq_getElem hi1ltA, List.get_eq_getElem]
    have e1 : (intern db f1 p1).1[i1.val]? = some ((intern db f1 p1).1.get i1) := by
      rw [List.getElem?_eq_getElem i1.isLt, List.get_eq_getElem]
    rw [e2, e1] at h2v
    have hrows := Option.some.inj h2v
    have hi2eq : i2 = ⟨i1.val, hi1ltA⟩ := Fin.ext hsame.symm
    rw [hi2eq, hrows, hi1hash] at hi2hash
    exact hne hi2hash

/-- Witness for C3 at the empty content store with concrete fingerprints. -/
theorem claim_C3_intern_dedups_by_fingerprint_witness :
    intern (intern [] "9dd4e461" "p").1 "9dd4e461" "q" = intern [] "9dd4e461" "p" ∧
    (intern (intern [] "9dd4e461" "p").1 "e4da3b7f" "q").2 ≠ (intern [] "9dd4e461" "p").2 :=
  ⟨(claim_C3_intern_dedups_by_fingerprint [] InternReach.nil "9dd4e461" "p" "9dd4e461" "q").1 rfl,
   (claim_C3_intern_dedups_by_fingerprint [] InternReach.nil "9dd4e461" "p" "e4da3b7f" "q").2.1
     (by decide)⟩

/-- C6: `end-collection-store` on an already-closed collection leaves the
database unchanged and reports `Already Ended!`, a signal distinct from
`Store Ended!`; on an open collection it sets that collection's
`store_end_at` to now (and touches no other row). -/
theorem claim_C6_end_collection_store_idempotent :
    ∀ (db : List Collection) (c : Collection) (now : Nat),
      (c.store_end_at.isSome = true →
        end_collection_store_run_command db c now = (db, .alreadyEnded)) ∧
      (c.store_end_at = none →
        (end_collection_store_run_command db c now).2 = .storeEnded ∧
        ∀ b ∈ (end_collection_store_run_command db c now).1,
          (b.id = c.id → b.store_end_at = some now) ∧ (b.id ≠ c.id → b ∈ db)) ∧
      (EndStoreOutcome.alreadyEnded ≠ EndStoreOutcome.storeEnded) := by
  intro db c now
  refine ⟨?_, ?_, by decide⟩
  · intro h
    unfold end_collection_store_run_command
    rw [if_pos h]
  · intro h
    unfold end_collection_store_run_command
    rw [if_neg (by rw [h]; simp)]
    refine ⟨rfl, ?_⟩
    intro b hb
    simp only at hb
    unfold mark_collection_store_done at hb
    rcases List.mem_map.mp hb with ⟨a, ha, hab⟩
    by_cases hid : (a.id == c.id) = true
    · rw [if_pos hid] at hab
      constructor
      · intro _; rw [← hab]
      · intro hne
        have hba : b.id = a.id := by rw [← hab]
        exact absurd (by rw [hba]; exact beq_iff_eq.mp hid) hne
    · rw [if_neg hid] at hab
      constructor
      · intro heq
        rw [← hab] at heq
        exact absurd (beq_iff_eq.mpr heq) hid
      · intro _; rw [← hab]; exact ha

/-- Witness for C6 on concrete closed and open rows. -/
theorem claim_C6_end_collection_store_idempotent_witness :
    end_collection_store_run_command [closedRow] closedRow 9 =
      ([closedRow], .alreadyEnded) ∧
    (end_collection_store_run_command [masterRowA] masterRowA 9).2 = .storeEnded :=
  ⟨(claim_C6_end_collection_store_idempotent [closedRow] closedRow 9).1 rfl,
   ((claim_C6_end_collection_store_idempotent [masterRowA] masterRowA 9).2.1 rfl).1⟩

/-- C7 counterexample: the spelling `upgrade-1.0-to-1.1` claimed by the spec
is not an accepted `addstep` value and is not a declared transform type; the
stored enum value is `upgrade-1-0-to-1-1` (`src/default/models.py` line 53). -/
theorem claim_C7_counterexample :
    "upgrade-1.0-to-1.1" ∉ addstepStepChoices ∧
    Collection.Transforms.values ≠ ["compile-releases", "upgrade-1.0-to-1.1"] := by
  constructor
  · intro h
    simp [addstepStepChoices, Collection.Transforms.values,
      Collection.Transforms.COMPILE_RELEASES, Collection.Transforms.UPGRADE_10_11] at h
  · intro h
    have := congrArg (fun l => l.get? 1) h
    simp [Collection.Transforms.values, Collection.Transforms.COMPILE_RELEASES,
      Collection.Transforms.UPGRADE_10_11] at this

/-- C7 (amended): the steps accepted by `addstep` are exactly `check` plus the
declared transform types, and those are `compile-releases` and
`upgrade-1-0-to-1-1`. -/
theorem claim_C7_amended_step_choices :
    addstepStepChoices = ["check"] ++ Collection.Transforms.values ∧
    Collection.Transforms.values = ["compile-releases", "upgrade-1-0-to-1-1"] :=
  ⟨rfl, rfl⟩

/-- C10: the `compile` keyword passed to `create_master_collection` always
equals `options["upgrade"]`; changing the `--compile` flag never changes the
call. -/
theorem claim_C10_compile_flag_has_no_effect :
    ∀ (options : LoadOptions) (data_version : String) (b : Bool),
      (createMasterCollectionCall options data_version).compile = options.upgrade ∧
      createMasterCollectionCall { options with compile := b } data_version =
        createMasterCollectionCall options data_version :=
  fun _ _ _ => ⟨rfl, rfl⟩

/-- C5: the conflict branch of `load.handle` never reaches its `CommandError`
messages. `data` includes the key `force`, which is not a field of
`Collection`, so `Collection.objects.get(**data, transform_type='')` raises
`FieldError` for every database state and every input — before any of the
being-deleted / closed / open distinctions can be made. The second conjunct
evaluates the branch at the claim's concrete scenario: a matching open
collection exists. -/
theorem claim_C5_conflict_reporting_unreachable :
    (∀ (db : List Collection) (source : Option String) (data_version : String)
        (sample force : Bool),
      loadIntegrityErrorBranch db source data_version sample force =
        .uncaught (.fieldError "force")) ∧
    loadIntegrityErrorBranch [masterRowA] (some "example") "2020-01-01 00:00:00"
        false false = .uncaught (.fieldError "force") :=
  ⟨fun _ _ _ _ _ => rfl, rfl⟩

/-- C9 counterexample: on a body whose parse raises, the checker's entire
behaviour is to log the exception and exit the process; in particular no
`recordError` action occurs, so the failure is not recorded in any errors
payload (the checker performs no database write at all). -/
theorem claim_C9_counterexample :
    checkerProcessTrace ParsedBody.raises =
      [CheckerEv.logException, CheckerEv.exitProcess] ∧
    (checkerProcessTrace ParsedBody.raises).all
      (fun e => !(e == CheckerEv.recordError)) = true := by
  decide

/-- C9 (amended): on failure the checker neither acknowledges, publishes,
advances a pending list nor records the failure anywhere — it logs the
exception and exits; on success the acknowledgment is the final action,
issued after the next-phase publish. -/
theorem claim_C9_amended_no_ack_no_record_on_failure :
    (∀ b : ParsedBody, (checkerProcessTrace b).all
      (fun e => !(e == CheckerEv.recordError) && !(e == CheckerEv.advanceStep)) = true) ∧
    checkerProcessTrace ParsedBody.raises =
      [CheckerEv.logException, CheckerEv.exitProcess] ∧
    (∀ m : String, checkerProcessTrace (ParsedBody.ok m) =
      [CheckerEv.parse, CheckerEv.publish datasetMessage, CheckerEv.ack]) ∧
    (∀ b : ParsedBody, (checkerProcessTrace b).getLast? = some CheckerEv.ack ∨
      (checkerProcessTrace b).all (fun e => !(e == CheckerEv.ack)) = true) := by
  refine ⟨?_, rfl, fun m => rfl, ?_⟩
  · intro b
    cases b with
    | ok m => rfl
    | raises => rfl
  · intro b
    cases b with
    | ok m => exact Or.inl rfl
    | raises => exact Or.inr (by decide)

/-- C8 counterexample: in the claim's own scenario (one file, default stage
chain `["check"]`), the load command's execution contains
`setCollectionEnd` although no stage has run and the file's `store_end_at` is
never set — the stage chain only starts afterwards, on the published message,
so `store_end_at` on the collection is set before the stages complete, not
after. -/
theorem claim_C8_counterexample :
    LoadEv.setCollectionEnd ∈ loadHandleTrace ["check"] ["file1"] false ∧
    (loadHandleTrace ["check"] ["file1"] false).all
      (fun e => !(e.isRunStage)) = true ∧
    (loadHandleTrace ["check"] ["file1"] false).all
      (fun e => !(e.isSetFileEnd)) = true := by
  decide

/-- C8 (amended): for every load invocation the command closes the collection
itself: its trace contains `setCollectionEnd`, contains no stage run, and
never writes `store_end_at` on a file — the collection is closed before any
stage of the default chain has run, and file-level `store_end_at` is not set
by this code at all. -/
theorem claim_C8_amended_load_closes_collection_before_stages :
    ∀ (defaultSteps paths : List String) (hasUp : Bool),
      LoadEv.setCollectionEnd ∈ loadHandleTrace defaultSteps paths hasUp ∧
      (loadHandleTrace defaultSteps paths hasUp).all
        (fun e => !(e.isRunStage)) = true ∧
      (loadHandleTrace defaultSteps paths hasUp).all
        (fun e => !(e.isSetFileEnd)) = true := by
  intro ds paths hasUp
  have hmem : ∀ (q : LoadEv → Bool), q LoadEv.setCollectionEnd = true →
      q LoadEv.setUpgradedCollectionEnd = true →
      (∀ p s, q (LoadEv.storeFile p) = true ∧ q (LoadEv.attachStep p s) = true ∧
        q (LoadEv.publishMessage p) = true) →
      (loadHandleTrace ds paths hasUp).all q = true := by
    intro q h1 h2 h3
    unfold loadHandleTrace
    rw [List.all_append, List.all_append, Bool.and_eq_true, Bool.and_eq_true]
    refine ⟨⟨?_, by simp [h1]⟩, ?_⟩
    · rw [List.all_eq_true]
      intro e he
      rcases List.mem_flatMap.mp he with ⟨p, _, he2⟩
      rcases List.mem_append.mp he2 with h4 | h5
      · rcases List.mem_append.mp h4 with h6 | h7
        · rw [List.mem_singleton.mp h6]; exact (h3 p "").1
        · rcases List.mem_map.mp h7 with ⟨s, _, hes⟩
          rw [← hes]; exact (h3 p s).2.1
      · rw [List.mem_singleton.mp h5]; exact (h3 p "").2.2
    · cases hasUp with
      | true => simp [h2]
      | false => simp
  refine ⟨?_, ?_, ?_⟩
  · unfold loadHandleTrace
    exact List.mem_append.mpr (Or.inl (List.mem_append.mpr (Or.inr (List.mem_singleton.mpr rfl))))
  · exact hmem _ rfl rfl (fun p s => ⟨rfl, rfl, rfl⟩)
  · exact hmem _ rfl rfl (fun p s => ⟨rfl, rfl, rfl⟩)

/-- C1: the exactly-once guarantee fails on this code. In the serialization
where `addstep compile-releases` commits first and a loader then stores
`file1`, the loader attaches only `settings.DEFAULT_STEPS` (it never reads
the collection's updated configuration, contrary to the protocol documented
in `addstep.py`), so `file1` is never enqueued for the new stage (count 0);
symmetrically, when the added step is already a default step, a pre-existing
file is enqueued twice (count 2). -/
theorem claim_C1_exactly_once_enqueue_fails :
    ("file1" ∈ (runSchedule ["check"]
        [PipelineTx.addstep "compile-releases", PipelineTx.load "file1"]
        initialPipelineState).files ∧
      "compile-releases" ∈ (runSchedule ["check"]
        [PipelineTx.addstep "compile-releases", PipelineTx.load "file1"]
        initialPipelineState).collectionSteps ∧
      enqueueCount (runSchedule ["check"]
        [PipelineTx.addstep "compile-releases", PipelineTx.load "file1"]
        initialPipelineState) "file1" "compile-releases" = 0) ∧
    ("file1" ∈ (runSchedule ["check"]
        [PipelineTx.load "file1", PipelineTx.addstep "check"]
        initialPipelineState).files ∧
      enqueueCount (runSchedule ["check"]
        [PipelineTx.load "file1", PipelineTx.addstep "check"]
        initialPipelineState) "file1" "check" = 2) := by
  decide

/-- Witness for C4: a collection with only `transform_type` set fails
validation, and a concrete stored table contains no half-set lineage. -/
theorem claim_C4_lineage_all_or_nothing_witness :
    (∃ m, halfLineageRow.clean_fields = .error m) ∧
    xor (pyTruthyOptNat masterRowA.transform_from_collection_id)
      (pyTruthyStr masterRowA.transform_type) = false := by
  have h1 : saveCollection [] masterRowA = .ok [masterRowA] := by rfl
  exact ⟨(claim_C4_lineage_all_or_nothing.1 halfLineageRow).mpr (by decide),
    claim_C4_lineage_all_or_nothing.2 [masterRowA]
      (Stored.save Stored.nil h1) masterRowA (List.mem_singleton.mpr rfl)⟩

end KF
